import Mathlib

/-!
# Verification of the one-way recursive portal renderer

Shallow embedding of the portal subsystem (`PortalManager` and its helper
functions `updatePortalCamera`, `applyObliqueClipping`, `getPlaneFromObject`)
over exact rational arithmetic.  Vectors, quaternions, planes and matrices are
transcribed from the three.js operations the source calls (`Matrix4.multiply`,
`Matrix4.invert`, `Matrix3.getNormalMatrix`, `Vector3.applyQuaternion`,
`Plane.setFromNormalAndCoplanarPoint`, ...), with JavaScript floating point
idealised as `ℚ`: square roots (which appear only inside `Vector3.normalize`)
are embedded by `ratSqrt`, which is exact on perfect rational squares (the only
inputs the verified statements depend on), and division by zero yields `0`
(the source treats degenerate planes/transforms as programming errors).

The render loop is embedded as a function from a manager configuration and a
mutable render state (portal visibility, portal material, scene materials) to
the ordered list of draw-submission commands issued to the renderer plus the
final state.  A small per-pixel stencil semantics interprets that command list.
-/

/-- Transcription of `Math.sign`, restricted to rationals. -/
def rsign (x : ℚ) : ℚ := if 0 < x then 1 else if x < 0 then -1 else 0

/-- Embedding of the floating-point square root used by `Vector3.length`:
exact on rationals whose numerator and denominator are perfect squares
(in particular `ratSqrt 1 = 1`, the only value the theorems rely on). -/
def ratSqrt (x : ℚ) : ℚ := (Nat.sqrt x.num.toNat : ℚ) / (Nat.sqrt x.den : ℚ)

/-- Embedding of `THREE.Vector3` over exact rationals. -/
@[ext] structure Vec3 where
  x : ℚ
  y : ℚ
  z : ℚ
deriving DecidableEq

/-- Embedding of `THREE.Vector4` over exact rationals. -/
@[ext] structure Vec4 where
  x : ℚ
  y : ℚ
  z : ℚ
  w : ℚ
deriving DecidableEq

/-- Embedding of `THREE.Quaternion` over exact rationals. -/
@[ext] structure Quat where
  x : ℚ
  y : ℚ
  z : ℚ
  w : ℚ
deriving DecidableEq

/-- Transcription of `Vector3.dot`. -/
def dot3 (a b : Vec3) : ℚ := a.x * b.x + a.y * b.y + a.z * b.z

/-- Transcription of `Vector4.dot`. -/
def dot4 (a b : Vec4) : ℚ := a.x * b.x + a.y * b.y + a.z * b.z + a.w * b.w

/-- Squared Euclidean length of a 3-vector (`Vector3.lengthSq`). -/
def normSq3 (v : Vec3) : ℚ := dot3 v v

/-- Transcription of `Vector3.length`, with the square root embedded by `ratSqrt`. -/
def vlength (v : Vec3) : ℚ := ratSqrt (normSq3 v)

/-- Transcription of `Vector3.normalize`: `divideScalar(length() || 1)` — the zero vector is
left unchanged (division by `1`). -/
def vnormalize (v : Vec3) : Vec3 :=
  let l := vlength v
  if l = 0 then v else ⟨v.x / l, v.y / l, v.z / l⟩

/-- Transcription of `Vector3.multiplyScalar`. -/
def vscale (s : ℚ) (v : Vec3) : Vec3 := ⟨v.x * s, v.y * s, v.z * s⟩

/-- Transcription of `Vector3.applyQuaternion` (three.js formula `v + q.w*t + q.xyz × t` with
`t = 2 (q.xyz × v)`; a rotation when the quaternion has unit norm). -/
def applyQuaternionV (v : Vec3) (q : Quat) : Vec3 :=
  let tx := 2 * (q.y * v.z - q.z * v.y)
  let ty := 2 * (q.z * v.x - q.x * v.z)
  let tz := 2 * (q.x * v.y - q.y * v.x)
  ⟨v.x + q.w * tx + q.y * tz - q.z * ty,
   v.y + q.w * ty + q.z * tx - q.x * tz,
   v.z + q.w * tz + q.x * ty - q.y * tx⟩

/-- Squared norm of a quaternion. -/
def quatNormSq (q : Quat) : ℚ := q.x * q.x + q.y * q.y + q.z * q.z + q.w * q.w

/-- Embedding of `THREE.Matrix4` with row/column-named entries; `mIJ` is row `I`, column `J`
(column-major element index mapping: `elements[0] = m11`, `elements[1] = m21`,
..., `elements[12] = m14`, `elements[15] = m44`). -/
@[ext] structure Mat4 where
  m11 : ℚ
  m21 : ℚ
  m31 : ℚ
  m41 : ℚ
  m12 : ℚ
  m22 : ℚ
  m32 : ℚ
  m42 : ℚ
  m13 : ℚ
  m23 : ℚ
  m33 : ℚ
  m43 : ℚ
  m14 : ℚ
  m24 : ℚ
  m34 : ℚ
  m44 : ℚ
deriving DecidableEq

/-- The identity matrix (`new THREE.Matrix4()`). -/
def mat4One : Mat4 :=
  { m11 := 1, m21 := 0, m31 := 0, m41 := 0,
    m12 := 0, m22 := 1, m32 := 0, m42 := 0,
    m13 := 0, m23 := 0, m33 := 1, m43 := 0,
    m14 := 0, m24 := 0, m34 := 0, m44 := 1 }

/-- The all-zero matrix (what `Matrix4.invert` returns for determinant 0). -/
def mat4Zero : Mat4 :=
  { m11 := 0, m21 := 0, m31 := 0, m41 := 0,
    m12 := 0, m22 := 0, m32 := 0, m42 := 0,
    m13 := 0, m23 := 0, m33 := 0, m43 := 0,
    m14 := 0, m24 := 0, m34 := 0, m44 := 0 }

/-- Transcription of `Matrix4.multiplyMatrices(a, b)` (`a.multiply(b)` computes `a * b`). -/
def mat4Mul (a b : Mat4) : Mat4 :=
  { m11 := a.m11 * b.m11 + a.m12 * b.m21 + a.m13 * b.m31 + a.m14 * b.m41,
    m12 := a.m11 * b.m12 + a.m12 * b.m22 + a.m13 * b.m32 + a.m14 * b.m42,
    m13 := a.m11 * b.m13 + a.m12 * b.m23 + a.m13 * b.m33 + a.m14 * b.m43,
    m14 := a.m11 * b.m14 + a.m12 * b.m24 + a.m13 * b.m34 + a.m14 * b.m44,
    m21 := a.m21 * b.m11 + a.m22 * b.m21 + a.m23 * b.m31 + a.m24 * b.m41,
    m22 := a.m21 * b.m12 + a.m22 * b.m22 + a.m23 * b.m32 + a.m24 * b.m42,
    m23 := a.m21 * b.m13 + a.m22 * b.m23 + a.m23 * b.m33 + a.m24 * b.m43,
    m24 := a.m21 * b.m14 + a.m22 * b.m24 + a.m23 * b.m34 + a.m24 * b.m44,
    m31 := a.m31 * b.m11 + a.m32 * b.m21 + a.m33 * b.m31 + a.m34 * b.m41,
    m32 := a.m31 * b.m12 + a.m32 * b.m22 + a.m33 * b.m32 + a.m34 * b.m42,
    m33 := a.m31 * b.m13 + a.m32 * b.m23 + a.m33 * b.m33 + a.m34 * b.m43,
    m34 := a.m31 * b.m14 + a.m32 * b.m24 + a.m33 * b.m34 + a.m34 * b.m44,
    m41 := a.m41 * b.m11 + a.m42 * b.m21 + a.m43 * b.m31 + a.m44 * b.m41,
    m42 := a.m41 * b.m12 + a.m42 * b.m22 + a.m43 * b.m32 + a.m44 * b.m42,
    m43 := a.m41 * b.m13 + a.m42 * b.m23 + a.m43 * b.m33 + a.m44 * b.m43,
    m44 := a.m41 * b.m14 + a.m42 * b.m24 + a.m43 * b.m34 + a.m44 * b.m44 }

/-- Transcription of `Matrix4.invert` — three.js closed-form cofactor inversion; a singular
matrix is sent to the zero matrix, exactly as in the source. -/
def mat4Invert (m : Mat4) : Mat4 :=
  let t11 := m.m23 * m.m34 * m.m42 - m.m24 * m.m33 * m.m42 + m.m24 * m.m32 * m.m43
      - m.m22 * m.m34 * m.m43 - m.m23 * m.m32 * m.m44 + m.m22 * m.m33 * m.m44
  let t12 := m.m14 * m.m33 * m.m42 - m.m13 * m.m34 * m.m42 - m.m14 * m.m32 * m.m43
      + m.m12 * m.m34 * m.m43 + m.m13 * m.m32 * m.m44 - m.m12 * m.m33 * m.m44
  let t13 := m.m13 * m.m24 * m.m42 - m.m14 * m.m23 * m.m42 + m.m14 * m.m22 * m.m43
      - m.m12 * m.m24 * m.m43 - m.m13 * m.m22 * m.m44 + m.m12 * m.m23 * m.m44
  let t14 := m.m14 * m.m23 * m.m32 - m.m13 * m.m24 * m.m32 - m.m14 * m.m22 * m.m33
      + m.m12 * m.m24 * m.m33 + m.m13 * m.m22 * m.m34 - m.m12 * m.m23 * m.m34
  let det := m.m11 * t11 + m.m21 * t12 + m.m31 * t13 + m.m41 * t14
  if det = 0 then mat4Zero else
  let detInv := 1 / det
  { m11 := t11 * detInv,
    m21 := (m.m24 * m.m33 * m.m41 - m.m23 * m.m34 * m.m41 - m.m24 * m.m31 * m.m43
      + m.m21 * m.m34 * m.m43 + m.m23 * m.m31 * m.m44 - m.m21 * m.m33 * m.m44) * detInv,
    m31 := (m.m22 * m.m34 * m.m41 - m.m24 * m.m32 * m.m41 + m.m24 * m.m31 * m.m42
      - m.m21 * m.m34 * m.m42 - m.m22 * m.m31 * m.m44 + m.m21 * m.m32 * m.m44) * detInv,
    m41 := (m.m23 * m.m32 * m.m41 - m.m22 * m.m33 * m.m41 - m.m23 * m.m31 * m.m42
      + m.m21 * m.m33 * m.m42 + m.m22 * m.m31 * m.m43 - m.m21 * m.m32 * m.m43) * detInv,
    m12 := t12 * detInv,
    m22 := (m.m13 * m.m34 * m.m41 - m.m14 * m.m33 * m.m41 + m.m14 * m.m31 * m.m43
      - m.m11 * m.m34 * m.m43 - m.m13 * m.m31 * m.m44 + m.m11 * m.m33 * m.m44) * detInv,
    m32 := (m.m14 * m.m32 * m.m41 - m.m12 * m.m34 * m.m41 - m.m14 * m.m31 * m.m42
      + m.m11 * m.m34 * m.m42 + m.m12 * m.m31 * m.m44 - m.m11 * m.m32 * m.m44) * detInv,
    m42 := (m.m12 * m.m33 * m.m41 - m.m13 * m.m32 * m.m41 + m.m13 * m.m31 * m.m42
      - m.m11 * m.m33 * m.m42 - m.m12 * m.m31 * m.m43 + m.m11 * m.m32 * m.m43) * detInv,
    m13 := t13 * detInv,
    m23 := (m.m14 * m.m23 * m.m41 - m.m13 * m.m24 * m.m41 - m.m14 * m.m21 * m.m43
      + m.m11 * m.m24 * m.m43 + m.m13 * m.m21 * m.m44 - m.m11 * m.m23 * m.m44) * detInv,
    m33 := (m.m12 * m.m24 * m.m41 - m.m14 * m.m22 * m.m41 + m.m14 * m.m21 * m.m42
      - m.m11 * m.m24 * m.m42 - m.m12 * m.m21 * m.m44 + m.m11 * m.m22 * m.m44) * detInv,
    m43 := (m.m13 * m.m22 * m.m41 - m.m12 * m.m23 * m.m41 - m.m13 * m.m21 * m.m42
      + m.m11 * m.m23 * m.m42 + m.m12 * m.m21 * m.m43 - m.m11 * m.m22 * m.m43) * detInv,
    m14 := t14 * detInv,
    m24 := (m.m13 * m.m24 * m.m31 - m.m14 * m.m23 * m.m31 + m.m14 * m.m21 * m.m33
      - m.m11 * m.m24 * m.m33 - m.m13 * m.m21 * m.m34 + m.m11 * m.m23 * m.m34) * detInv,
    m34 := (m.m14 * m.m22 * m.m31 - m.m12 * m.m24 * m.m31 - m.m14 * m.m21 * m.m32
      + m.m11 * m.m24 * m.m32 + m.m12 * m.m21 * m.m34 - m.m11 * m.m22 * m.m34) * detInv,
    m44 := (m.m12 * m.m23 * m.m31 - m.m13 * m.m22 * m.m31 + m.m13 * m.m21 * m.m32
      - m.m11 * m.m23 * m.m32 - m.m12 * m.m21 * m.m33 + m.m11 * m.m22 * m.m33) * detInv }

/-- Value of `Matrix4.makeRotationY(Math.PI)`: the module-level constant `_rotY180`
(cos π = −1, sin π = 0, idealising the float evaluation). -/
def rotY180 : Mat4 :=
  { m11 := -1, m21 := 0, m31 := 0, m41 := 0,
    m12 := 0, m22 := 1, m32 := 0, m42 := 0,
    m13 := 0, m23 := 0, m33 := -1, m43 := 0,
    m14 := 0, m24 := 0, m34 := 0, m44 := 1 }

/-- Transcription of `Matrix4.compose(position, quaternion, scale)` — the world matrix of a
scene-root `Object3D` built by `updateMatrixWorld`. -/
def mat4Compose (p : Vec3) (q : Quat) (s : Vec3) : Mat4 :=
  let x2 := q.x + q.x
  let y2 := q.y + q.y
  let z2 := q.z + q.z
  let xx := q.x * x2
  let xy := q.x * y2
  let xz := q.x * z2
  let yy := q.y * y2
  let yz := q.y * z2
  let zz := q.z * z2
  let wx := q.w * x2
  let wy := q.w * y2
  let wz := q.w * z2
  { m11 := (1 - (yy + zz)) * s.x, m21 := (xy + wz) * s.x, m31 := (xz - wy) * s.x, m41 := 0,
    m12 := (xy - wz) * s.y, m22 := (1 - (xx + zz)) * s.y, m32 := (yz + wx) * s.y, m42 := 0,
    m13 := (xz + wy) * s.z, m23 := (yz - wx) * s.z, m33 := (1 - (xx + yy)) * s.z, m43 := 0,
    m14 := p.x, m24 := p.y, m34 := p.z, m44 := 1 }

/-- Embedding of `THREE.Matrix3` (column-major `elements[0] = n11`, `elements[1] = n21`, ...). -/
@[ext] structure Mat3 where
  n11 : ℚ
  n21 : ℚ
  n31 : ℚ
  n12 : ℚ
  n22 : ℚ
  n32 : ℚ
  n13 : ℚ
  n23 : ℚ
  n33 : ℚ
deriving DecidableEq

/-- Transcription of `Matrix3.setFromMatrix4`: the upper-left 3×3 block. -/
def mat3FromMat4 (m : Mat4) : Mat3 :=
  { n11 := m.m11, n21 := m.m21, n31 := m.m31,
    n12 := m.m12, n22 := m.m22, n32 := m.m32,
    n13 := m.m13, n23 := m.m23, n33 := m.m33 }

/-- Transcription of `Matrix3.invert` — closed-form cofactor inversion, zero matrix if singular. -/
def mat3Invert (m : Mat3) : Mat3 :=
  let t11 := m.n33 * m.n22 - m.n32 * m.n23
  let t12 := m.n32 * m.n13 - m.n33 * m.n12
  let t13 := m.n23 * m.n12 - m.n22 * m.n13
  let det := m.n11 * t11 + m.n21 * t12 + m.n31 * t13
  if det = 0 then
    { n11 := 0, n21 := 0, n31 := 0, n12 := 0, n22 := 0, n32 := 0, n13 := 0, n23 := 0, n33 := 0 }
  else
    let detInv := 1 / det
    { n11 := t11 * detInv,
      n21 := (m.n31 * m.n23 - m.n33 * m.n21) * detInv,
      n31 := (m.n32 * m.n21 - m.n31 * m.n22) * detInv,
      n12 := t12 * detInv,
      n22 := (m.n33 * m.n11 - m.n31 * m.n13) * detInv,
      n32 := (m.n31 * m.n12 - m.n32 * m.n11) * detInv,
      n13 := t13 * detInv,
      n23 := (m.n21 * m.n13 - m.n23 * m.n11) * detInv,
      n33 := (m.n22 * m.n11 - m.n21 * m.n12) * detInv }

/-- Transcription of `Matrix3.transpose`. -/
def mat3Transpose (m : Mat3) : Mat3 :=
  { n11 := m.n11, n21 := m.n12, n31 := m.n13,
    n12 := m.n21, n22 := m.n22, n32 := m.n23,
    n13 := m.n31, n23 := m.n32, n33 := m.n33 }

/-- Transcription of `Matrix3.getNormalMatrix(m)`: inverse-transpose of the upper-left 3×3. -/
def getNormalMatrix (m : Mat4) : Mat3 := mat3Transpose (mat3Invert (mat3FromMat4 m))

/-- Transcription of `Vector3.applyMatrix3`. -/
def v3ApplyMatrix3 (v : Vec3) (m : Mat3) : Vec3 :=
  ⟨m.n11 * v.x + m.n12 * v.y + m.n13 * v.z,
   m.n21 * v.x + m.n22 * v.y + m.n23 * v.z,
   m.n31 * v.x + m.n32 * v.y + m.n33 * v.z⟩

/-- Transcription of `Vector3.applyMatrix4` (with perspective divide; the `w = 0` degenerate
case yields `0` instead of JS `Infinity`, outside every verified statement). -/
def v3ApplyMatrix4 (v : Vec3) (m : Mat4) : Vec3 :=
  let w := 1 / (m.m41 * v.x + m.m42 * v.y + m.m43 * v.z + m.m44)
  ⟨(m.m11 * v.x + m.m12 * v.y + m.m13 * v.z + m.m14) * w,
   (m.m21 * v.x + m.m22 * v.y + m.m23 * v.z + m.m24) * w,
   (m.m31 * v.x + m.m32 * v.y + m.m33 * v.z + m.m34) * w⟩

/-- Transcription of `Vector4.applyMatrix4`. -/
def v4ApplyMatrix4 (v : Vec4) (m : Mat4) : Vec4 :=
  ⟨m.m11 * v.x + m.m12 * v.y + m.m13 * v.z + m.m14 * v.w,
   m.m21 * v.x + m.m22 * v.y + m.m23 * v.z + m.m24 * v.w,
   m.m31 * v.x + m.m32 * v.y + m.m33 * v.z + m.m34 * v.w,
   m.m41 * v.x + m.m42 * v.y + m.m43 * v.z + m.m44 * v.w⟩

/-- Transcription of `Vector4.multiplyScalar`. -/
def v4scale (s : ℚ) (v : Vec4) : Vec4 := ⟨v.x * s, v.y * s, v.z * s, v.w * s⟩

/-- Embedding of `THREE.Plane` (`normal · p + constant = 0`). -/
@[ext] structure Plane where
  normal : Vec3
  constant : ℚ
deriving DecidableEq

/-- Transcription of `Plane.setFromNormalAndCoplanarPoint`. -/
def setFromNormalAndCoplanarPoint (n p : Vec3) : Plane :=
  { normal := n, constant := -(dot3 p n) }

/-- Transcription of `Plane.distanceToPoint`. -/
def distanceToPoint (pl : Plane) (p : Vec3) : ℚ := dot3 pl.normal p + pl.constant

/-- Transcription of `Plane.coplanarPoint`: `normal * (-constant)`. -/
def coplanarPoint (pl : Plane) : Vec3 := vscale (-pl.constant) pl.normal

/-- A camera as the portal code observes it: a world transform plus projection
matrices.  `matrixWorldInverse` is recomputed from `matrixWorld` wherever the
source calls `updateMatrixWorld(true)`, so it is derived, not stored.  The
`decompose`/recompose round trip performed by `updatePortalCamera` is the
identity on the world matrix (for the translation component this is exact:
`decompose` reads it off `elements[12..14]`), so the pose is tracked by
`matrixWorld` itself. -/
@[ext] structure Camera where
  matrixWorld : Mat4
  projectionMatrix : Mat4
  projectionMatrixInverse : Mat4
deriving DecidableEq

/-- The camera's decomposed world position: the translation column of its
world matrix (exactly what `Matrix4.decompose` assigns to `.position`). -/
def camPosition (c : Camera) : Vec3 := ⟨c.matrixWorld.m14, c.matrixWorld.m24, c.matrixWorld.m34⟩

/-- A scene-root `THREE.Object3D` (the view portal mesh and the reference
point are both added directly to the scene, so local transform = world
transform). -/
@[ext] structure Object3D where
  position : Vec3
  quaternion : Quat
  scale : Vec3
deriving DecidableEq

/-- Value of `Object3D.matrixWorld` after `updateMatrixWorld(true)` for a scene-root
object: `compose(position, quaternion, scale)`. -/
def matrixWorldOf (o : Object3D) : Mat4 := mat4Compose o.position o.quaternion o.scale

/-- Transcription of `Object3D.getWorldPosition`: the translation column of the world matrix. -/
def getWorldPosition (o : Object3D) : Vec3 :=
  ⟨(matrixWorldOf o).m14, (matrixWorldOf o).m24, (matrixWorldOf o).m34⟩

/-- Transcription of `updatePortalCamera(mainCamera, viewPortal, referencePoint, portalCamera)`
from the source: builds `reference * rot180 * inv(viewPortal) * mainCamera`
by successive `multiply` calls, assigns it to the portal camera's world pose
(via decompose + `updateMatrixWorld`), and copies both projection matrices
from the main camera.  The mutated `portalCamera` argument is returned. -/
def updatePortalCamera (mainCamera : Camera) (viewPortal referencePoint : Object3D) : Camera :=
  let m0 := matrixWorldOf referencePoint
  let m1 := mat4Mul m0 rotY180
  let m2 := mat4Mul m1 (mat4Invert (matrixWorldOf viewPortal))
  let m3 := mat4Mul m2 mainCamera.matrixWorld
  { matrixWorld := m3,
    projectionMatrix := mainCamera.projectionMatrix,
    projectionMatrixInverse := mainCamera.projectionMatrixInverse }

/-- The camera-space clip plane `(n.x, n.y, n.z, d)` computed by the first half
of `applyObliqueClipping`: the reference plane's normal pushed through the
normal matrix of the view matrix and renormalized, and `d = -n · p` for the
transformed coplanar point `p`. -/
def cameraSpaceClipPlane (portalCamera : Camera) (referencePlane : Plane) : Vec4 :=
  let viewMatrix := mat4Invert portalCamera.matrixWorld
  let normalMatrix := getNormalMatrix viewMatrix
  let n := vnormalize (v3ApplyMatrix3 referencePlane.normal normalMatrix)
  let p := v3ApplyMatrix4 (coplanarPoint referencePlane) viewMatrix
  let d := -(dot3 n p)
  ⟨n.x, n.y, n.z, d⟩

/-- Transcription of `applyObliqueClipping(portalCamera, referencePlane)` from the source:
replaces the third row (`elements[2], [6], [10], [14]`) of the projection
matrix with `scale * planeCameraSpace - row4` (Lengyel oblique near-plane
clipping) and refreshes the inverse projection. -/
def applyObliqueClipping (portalCamera : Camera) (referencePlane : Plane) : Camera :=
  let clipPlaneCam := cameraSpaceClipPlane portalCamera referencePlane
  let proj := portalCamera.projectionMatrix
  let invProj := mat4Invert proj
  let q := v4ApplyMatrix4 ⟨rsign clipPlaneCam.x, rsign clipPlaneCam.y, 1, 1⟩ invProj
  let scale := 2 / dot4 clipPlaneCam q
  let c := v4scale scale clipPlaneCam
  let proj2 : Mat4 :=
    { proj with m31 := c.x - proj.m41, m32 := c.y - proj.m42,
                m33 := c.z - proj.m43, m34 := c.w - proj.m44 }
  { portalCamera with projectionMatrix := proj2, projectionMatrixInverse := mat4Invert proj2 }

/-- Transcription of `getPlaneFromObject(object)` from the source: plane through the object's
world position whose normal is local `+Z` taken through the object's
orientation quaternion and explicitly normalized. -/
def getPlaneFromObject (object : Object3D) : Plane :=
  let normal := vnormalize (applyQuaternionV ⟨0, 0, 1⟩ object.quaternion)
  setFromNormalAndCoplanarPoint normal (getWorldPosition object)

/-- Transcription of `PortalManager.isPointInFrontOfPortal(point)`: strict positivity of the
signed distance from the view portal's plane. -/
def isPointInFrontOfPortal (viewPortal : Object3D) (point : Vec3) : Bool :=
  decide (0 < distanceToPoint (getPlaneFromObject viewPortal) point)

/-- The stencil comparison functions used by the portal code
(`THREE.EqualStencilFunc` and the material default `THREE.AlwaysStencilFunc`). -/
inductive StencilFuncKind
  | always
  | equal
deriving DecidableEq

/-- The stencil operations used by the portal code (`KeepStencilOp`,
`IncrementWrapStencilOp`, `DecrementWrapStencilOp`). -/
inductive StencilOpKind
  | keep
  | incrementWrap
  | decrementWrap
deriving DecidableEq

/-- The slice of a `THREE.Material` the portal renderer reads and writes.
Field defaults are the three.js material defaults. -/
@[ext] structure Material where
  colorWrite : Bool := true
  depthWrite : Bool := true
  stencilWrite : Bool := false
  stencilRef : ℕ := 0
  stencilFuncKind : StencilFuncKind := .always
  stencilFail : StencilOpKind := .keep
  stencilZFail : StencilOpKind := .keep
  stencilZPass : StencilOpKind := .keep
deriving DecidableEq

/-- The transient stencil-writer material `_renderPortalLevel` builds in
step 1: color/depth writes off, increment the stencil where it equals the
current level. -/
def stencilWriterMaterialAt (level : ℕ) : Material :=
  { colorWrite := false, depthWrite := false, stencilWrite := true,
    stencilRef := level, stencilFuncKind := .equal,
    stencilFail := .keep, stencilZFail := .keep, stencilZPass := .incrementWrap }

/-- The transient depth-restore material of step 6: color writes off, depth
writes on, decrement the stencil where it equals `stencilRef = level + 1`. -/
def depthOnlyMaterialAt (stencilRef : ℕ) : Material :=
  { colorWrite := false, depthWrite := true, stencilWrite := true,
    stencilRef := stencilRef, stencilFuncKind := .equal,
    stencilFail := .keep, stencilZFail := .keep, stencilZPass := .decrementWrap }

/-- One draw-submission or buffer command issued to the renderer, in program
order.  `renderHelper mat` is a `renderer.render(helperScene, viewCamera)`
call drawing only the view portal with the transient material `mat`;
`renderSceneStencil ref` is a full-scene render restricted (via the scene
materials) to stencil = `ref` from the freshly computed portal camera;
`renderMainFinal` is the closing main-camera render restricted to stencil 0;
`renderPlain` is the fallback `renderer.render(scene, mainCamera)`. -/
inductive RCmd
  | renderHelper (mat : Material)
  | updatePortalCam
  | clearDepth
  | renderSceneStencil (ref : ℕ)
  | renderMainFinal
  | renderPlain
  | clearColorDepthStencil
deriving DecidableEq

/-- The mutable scene state the portal renderer touches during a frame:
the view portal's visibility flag and current material, the stencil
configuration of every material in the scene, and the renderer's
`autoClear` flag. -/
@[ext] structure RenderState where
  portalVisible : Bool
  portalMaterial : Material
  sceneMaterials : List Material
  autoClear : Bool
deriving DecidableEq

/-- Transcription of `PortalManager._setSceneStencilTest(ref, func)`: configure every scene
material to test (and keep) the stencil. -/
def setSceneStencilTest (st : RenderState) (ref : ℕ) (func : StencilFuncKind) : RenderState :=
  { st with sceneMaterials := st.sceneMaterials.map fun mat =>
      { mat with stencilWrite := true, stencilRef := ref, stencilFuncKind := func,
                 stencilFail := .keep, stencilZFail := .keep, stencilZPass := .keep } }

/-- Transcription of `PortalManager._clearSceneStencilTest()`: switch the stencil test off on
every scene material. -/
def clearSceneStencilTest (st : RenderState) : RenderState :=
  { st with sceneMaterials := st.sceneMaterials.map fun mat =>
      { mat with stencilWrite := false } }

/-- The portal camera produced for one recursion level: the pose solve
(`updatePortalCamera`) followed by oblique near-plane clipping against the
reference plane (`applyObliqueClipping(portalCam, getReferencePlane())`). -/
def nextPortalCamera (viewPortal referencePoint : Object3D) (viewCamera : Camera) : Camera :=
  applyObliqueClipping (updatePortalCamera viewCamera viewPortal referencePoint)
    (getPlaneFromObject referencePoint)

/-- The portal camera in effect after `n` levels of recursion starting from
`cam` (`portalCamAtLevel ... cam (L+1)` is the portal camera computed at
level `L`). -/
def portalCamAtLevel (viewPortal referencePoint : Object3D) (cam : Camera) : ℕ → Camera
  | 0 => cam
  | n + 1 => nextPortalCamera viewPortal referencePoint (portalCamAtLevel viewPortal referencePoint cam n)

/-- Transcription of `PortalManager._renderPortalLevel(level, viewCamera)`, as a function from
the manager's configuration (recursion depth, original portal material, view
portal, reference point), the level, the view camera and the current render
state to the list of issued renderer commands and the final state.  The
`fuel` argument makes the recursion structural; `render()` passes
`fuel = recursionDepth`, and since every recursive call decrements `fuel`
while incrementing `level`, the `fuel = 0` branch is unreachable from
`render()` (levels stop strictly before `recursionDepth`). -/
def renderPortalLevel (recursionDepth : ℕ) (originalMaterial : Material)
    (viewPortal referencePoint : Option Object3D) :
    ℕ → ℕ → Camera → RenderState → List RCmd × RenderState
  | 0, _, _, st => ([], st)
  | fuel + 1, level, viewCamera, st =>
    if recursionDepth ≤ level then ([], st) else
    match viewPortal, referencePoint with
    | some portal, some refpt =>
      let stencilRef := level + 1
      let stencilWriterMat := stencilWriterMaterialAt level
      -- step 1: swap in the stencil-writer material and draw the portal shape
      let st1 : RenderState := { st with portalMaterial := stencilWriterMat, portalVisible := true }
      let st2 : RenderState := { st1 with portalMaterial := originalMaterial }
      -- steps 2 and 3: pose solve, then oblique clipping (projection only)
      let portalCam := nextPortalCamera portal refpt viewCamera
      -- step 4: clear depth, hide the portal, scene render under stencil test
      let st3 : RenderState := { st2 with portalVisible := false }
      let st4 := setSceneStencilTest st3 stencilRef .equal
      let st5 := clearSceneStencilTest st4
      let st6 : RenderState := { st5 with portalVisible := true }
      -- step 5: recurse while the next camera is still in front of the portal
      let rec1 : List RCmd × RenderState :=
        if level + 1 < recursionDepth then
          if isPointInFrontOfPortal portal (camPosition portalCam) then
            renderPortalLevel recursionDepth originalMaterial viewPortal referencePoint
              fuel (level + 1) portalCam st6
          else ([], st6)
        else ([], st6)
      -- step 6: depth-restore draw, then put the original material back
      let depthOnlyMat := depthOnlyMaterialAt stencilRef
      let st8 : RenderState := { rec1.2 with portalMaterial := depthOnlyMat, portalVisible := true }
      let st9 : RenderState := { st8 with portalMaterial := originalMaterial }
      (RCmd.renderHelper stencilWriterMat :: RCmd.updatePortalCam :: RCmd.clearDepth ::
         RCmd.renderSceneStencil stencilRef :: (rec1.1 ++ [RCmd.renderHelper depthOnlyMat]), st9)
    | _, _ => ([], st)

/-- The portal manager's per-frame configuration (the fields of the class
that `render`, `setRecursionDepth` and the geometry helpers read). -/
structure PortalManager where
  recursionDepth : ℕ
  enabled : Bool
  mainCamera : Camera
  viewPortal : Option Object3D
  referencePoint : Option Object3D
  originalMaterial : Material
  portalCameras : List Camera
deriving DecidableEq

/-- Transcription of `PortalManager.render()`: fall back to a single plain render when the
manager is disabled, no portal is configured, or the main camera is not
strictly in front of the portal plane; otherwise clear all buffers once, run
the recursion from level 0, and finish with the main-camera render restricted
to stencil 0 with the portal hidden, restoring visibility and the scene
materials' stencil state. -/
def render (mgr : PortalManager) (st : RenderState) : List RCmd × RenderState :=
  match mgr.enabled, mgr.viewPortal, mgr.referencePoint with
  | true, some portal, some refpt =>
    if isPointInFrontOfPortal portal (camPosition mgr.mainCamera) then
      let st1 : RenderState := { st with autoClear := false }
      let r := renderPortalLevel mgr.recursionDepth mgr.originalMaterial
        (some portal) (some refpt) mgr.recursionDepth 0 mgr.mainCamera st1
      let st2 := setSceneStencilTest r.2 0 .equal
      let st3 : RenderState := { st2 with portalVisible := false }
      let st4 : RenderState := { st3 with portalVisible := true }
      let st5 := clearSceneStencilTest st4
      (RCmd.clearColorDepthStencil :: (r.1 ++ [RCmd.renderMainFinal]), { st5 with autoClear := true })
    else ([RCmd.renderPlain], st)
  | _, _, _ => ([RCmd.renderPlain], st)

/-- A fresh `THREE.PerspectiveCamera` for the pool.  Its contents never reach
any observable value: `_renderPortalLevel` fully overwrites the pooled camera
(pose and both projections) before using it. -/
def newPerspectiveCamera : Camera :=
  { matrixWorld := mat4One, projectionMatrix := mat4One, projectionMatrixInverse := mat4One }

/-- Transcription of `PortalManager.setRecursionDepth(depth)`: clamp to `[1, 10]` and grow the
camera pool (`while (portalCameras.length < newDepth) push`) — never shrink. -/
def setRecursionDepth (mgr : PortalManager) (depth : ℤ) : PortalManager :=
  let newDepth : ℕ := (max 1 (min 10 depth)).toNat
  { mgr with
    recursionDepth := newDepth,
    portalCameras := mgr.portalCameras ++
      List.replicate (newDepth - mgr.portalCameras.length) newPerspectiveCamera }

/-- Effect of a stencil operation on a per-pixel stencil value (8-bit
wrap-around, as `IncrementWrapStencilOp`/`DecrementWrapStencilOp` specify). -/
def stencilOpApply : StencilOpKind → ℕ → ℕ
  | .keep, s => s
  | .incrementWrap, s => (s + 1) % 256
  | .decrementWrap, s => (s + 255) % 256

/-- Whether a stencil comparison passes for reference `ref` against value `s`. -/
def stencilTestPasses (f : StencilFuncKind) (ref s : ℕ) : Bool :=
  match f with
  | .always => true
  | .equal => s == ref

/-- Per-pixel stencil semantics of one renderer command, for a pixel covered
by the drawn geometry whose depth test passes.  The scene-wide stencil draws
(`renderSceneStencil`, `renderMainFinal`) keep the stencil unchanged because
`_setSceneStencilTest` installs `KeepStencilOp` for fail/zfail/zpass. -/
def stencilStep (s : ℕ) : RCmd → ℕ
  | .renderHelper mat =>
    if mat.stencilWrite then
      if stencilTestPasses mat.stencilFuncKind mat.stencilRef s
      then stencilOpApply mat.stencilZPass s
      else stencilOpApply mat.stencilFail s
    else s
  | .updatePortalCam => s
  | .clearDepth => s
  | .renderSceneStencil _ => s
  | .renderMainFinal => s
  | .renderPlain => s
  | .clearColorDepthStencil => 0

/-- Fold the stencil semantics over a command list. -/
def stencilAfter (s : ℕ) (t : List RCmd) : ℕ := t.foldl stencilStep s

/-- The stencil-increment ("mark") draw of recursion level `L`. -/
def markCmd (level : ℕ) : RCmd := RCmd.renderHelper (stencilWriterMaterialAt level)

/-- The stencil-decrement ("restore") draw of recursion level `L`
(its reference value is `L + 1`). -/
def restoreCmd (level : ℕ) : RCmd := RCmd.renderHelper (depthOnlyMaterialAt (level + 1))

/-- Number of occurrences of a command in a trace. -/
def countCmd (c : RCmd) (t : List RCmd) : ℕ := (t.filter fun x => x = c).length

/-- The guard chain for reaching level `j` of the recursion from view camera
`cam`: every portal camera computed on the way down is strictly in front of
the portal plane. -/
def descentOk (viewPortal referencePoint : Object3D) (cam : Camera) (j : ℕ) : Prop :=
  ∀ k, k < j →
    isPointInFrontOfPortal viewPortal
      (camPosition (portalCamAtLevel viewPortal referencePoint cam (k + 1))) = true

instance (viewPortal referencePoint : Object3D) (cam : Camera) (j : ℕ) :
    Decidable (descentOk viewPortal referencePoint cam j) := by
  unfold descentOk; infer_instance

theorem countCmd_nil (c : RCmd) : countCmd c [] = 0 := rfl

theorem countCmd_cons (c a : RCmd) (t : List RCmd) :
    countCmd c (a :: t) = (if a = c then 1 else 0) + countCmd c t := by
  by_cases h : a = c <;> simp [countCmd, List.filter_cons, h, Nat.add_comm]

theorem countCmd_append (c : RCmd) (s t : List RCmd) :
    countCmd c (s ++ t) = countCmd c s + countCmd c t := by
  simp [countCmd, List.filter_append]

theorem markCmd_inj (a b : ℕ) : markCmd a = markCmd b ↔ a = b := by
  constructor
  · intro h
    simpa [markCmd, stencilWriterMaterialAt, Material.mk.injEq] using h
  · intro h; rw [h]

theorem restoreCmd_inj (a b : ℕ) : restoreCmd a = restoreCmd b ↔ a = b := by
  constructor
  · intro h
    simpa [restoreCmd, depthOnlyMaterialAt, Material.mk.injEq] using h
  · intro h; rw [h]

theorem restoreCmd_ne_markCmd (a b : ℕ) : restoreCmd a ≠ markCmd b := by
  simp [markCmd, restoreCmd, stencilWriterMaterialAt, depthOnlyMaterialAt, Material.mk.injEq]

theorem mat4_one_mul (m : Mat4) : mat4Mul mat4One m = m := by
  ext <;> simp [mat4Mul, mat4One]

theorem forall_lt_succ_bot (P : ℕ → Prop) (n : ℕ) :
    (∀ k, k < n + 1 → P k) ↔ P 0 ∧ ∀ k, k < n → P (k + 1) := by
  constructor
  · intro h
    exact ⟨h 0 (Nat.succ_pos n), fun k hk => h (k + 1) (Nat.succ_lt_succ hk)⟩
  · intro h k hk
    cases k with
    | zero => exact h.1
    | succ k => exact h.2 k (Nat.lt_of_succ_lt_succ hk)

theorem forall_lt_succ_top (P : ℕ → Prop) (n : ℕ) :
    (∀ k, k < n + 1 → P k) ↔ (∀ k, k < n → P k) ∧ P n := by
  constructor
  · intro h
    exact ⟨fun k hk => h k (Nat.lt_succ_of_lt hk), h n (Nat.lt_succ_self n)⟩
  · intro h k hk
    rcases Nat.lt_succ_iff_lt_or_eq.mp hk with h1 | h1
    · exact h.1 k h1
    · rw [h1]; exact h.2

theorem ratSqrt_one : ratSqrt 1 = 1 := by norm_num [ratSqrt]

theorem vnormalize_of_normSq_one (v : Vec3) (h : normSq3 v = 1) : vnormalize v = v := by
  have hl : vlength v = 1 := by rw [vlength, h, ratSqrt_one]
  simp [vnormalize, hl]

theorem normSq3_applyQuaternionV_z (q : Quat) (h : quatNormSq q = 1) :
    normSq3 (applyQuaternionV ⟨0, 0, 1⟩ q) = 1 := by
  simp only [applyQuaternionV, normSq3, dot3, quatNormSq] at h ⊢
  linear_combination (4 * (q.x ^ 2 + q.y ^ 2)) * h


@[simp] theorem stencilWriterMaterialAt_inj (a b : ℕ) :
    stencilWriterMaterialAt a = stencilWriterMaterialAt b ↔ a = b := by
  simp [stencilWriterMaterialAt, Material.mk.injEq]

@[simp] theorem depthOnlyMaterialAt_inj (a b : ℕ) :
    depthOnlyMaterialAt a = depthOnlyMaterialAt b ↔ a = b := by
  simp [depthOnlyMaterialAt, Material.mk.injEq]

@[simp] theorem stencilWriter_ne_depthOnly (a b : ℕ) :
    ¬ stencilWriterMaterialAt a = depthOnlyMaterialAt b := by
  simp [stencilWriterMaterialAt, depthOnlyMaterialAt, Material.mk.injEq]

@[simp] theorem depthOnly_ne_stencilWriter (a b : ℕ) :
    ¬ depthOnlyMaterialAt a = stencilWriterMaterialAt b := by
  simp [stencilWriterMaterialAt, depthOnlyMaterialAt, Material.mk.injEq]

theorem rpl_mark_eq_restore (d : ℕ) (orig : Material) (portal refpt : Object3D) :
    ∀ fuel level cam st L,
      countCmd (markCmd L)
          ((renderPortalLevel d orig (some portal) (some refpt) fuel level cam st).1)
        = countCmd (restoreCmd L)
          ((renderPortalLevel d orig (some portal) (some refpt) fuel level cam st).1) := by
  intro fuel
  induction fuel with
  | zero => intro level cam st L; rfl
  | succ f ih =>
    intro level cam st L
    by_cases hdl : d ≤ level
    · simp only [renderPortalLevel, if_pos hdl]; rfl
    · simp only [renderPortalLevel, if_neg hdl]
      by_cases hs1 : level + 1 < d
      · by_cases hs2 : isPointInFrontOfPortal portal
            (camPosition (nextPortalCamera portal refpt cam)) = true
        · simp only [if_pos hs1, if_pos hs2, countCmd_cons, countCmd_append, countCmd_nil]
          rw [ih]
          by_cases hL : level = L <;>
            simp [markCmd, restoreCmd, hL, Nat.add_comm]
        · simp only [if_pos hs1, if_neg hs2, countCmd_cons, countCmd_append, countCmd_nil]
          by_cases hL : level = L <;> simp [markCmd, restoreCmd, hL]
      · simp only [if_neg hs1, countCmd_cons, countCmd_append, countCmd_nil]
        by_cases hL : level = L <;> simp [markCmd, restoreCmd, hL]

theorem portalCamAtLevel_shift (portal refpt : Object3D) (cam : Camera) :
    ∀ n, portalCamAtLevel portal refpt (nextPortalCamera portal refpt cam) n
      = portalCamAtLevel portal refpt cam (n + 1) := by
  intro n
  induction n with
  | zero => rfl
  | succ k ihk => simp only [portalCamAtLevel, ihk]

theorem rpl_mark_below (d : ℕ) (orig : Material) (portal refpt : Object3D) :
    ∀ fuel level cam st L, L < level →
      countCmd (markCmd L)
        ((renderPortalLevel d orig (some portal) (some refpt) fuel level cam st).1) = 0 := by
  intro fuel
  induction fuel with
  | zero => intro level cam st L _; rfl
  | succ f ih =>
    intro level cam st L hL
    by_cases hdl : d ≤ level
    · simp only [renderPortalLevel, if_pos hdl]; rfl
    · simp only [renderPortalLevel, if_neg hdl]
      have hne : ¬ level = L := by omega
      by_cases hs1 : level + 1 < d
      · by_cases hs2 : isPointInFrontOfPortal portal
            (camPosition (nextPortalCamera portal refpt cam)) = true
        · simp only [if_pos hs1, if_pos hs2, countCmd_cons, countCmd_append, countCmd_nil]
          rw [ih _ _ _ _ (by omega : L < level + 1)]
          simp [markCmd, restoreCmd, hne]
        · simp only [if_pos hs1, if_neg hs2, countCmd_cons, countCmd_append, countCmd_nil]
          simp [markCmd, restoreCmd, hne]
      · simp only [if_neg hs1, countCmd_cons, countCmd_append, countCmd_nil]
        simp [markCmd, restoreCmd, hne]

theorem rpl_mark_char (d : ℕ) (orig : Material) (portal refpt : Object3D) :
    ∀ fuel level cam st j, d ≤ fuel + level →
      countCmd (markCmd (level + j))
          ((renderPortalLevel d orig (some portal) (some refpt) fuel level cam st).1)
        = if level + j < d ∧ descentOk portal refpt cam j then 1 else 0 := by
  intro fuel
  induction fuel with
  | zero =>
    intro level cam st j hf
    rw [if_neg (by omega : ¬ (level + j < d ∧ descentOk portal refpt cam j))]
    rfl
  | succ f ih =>
    intro level cam st j hf
    by_cases hdl : d ≤ level
    · simp only [renderPortalLevel, if_pos hdl]
      rw [if_neg (by omega : ¬ (level + j < d ∧ descentOk portal refpt cam j)), countCmd_nil]
    · simp only [renderPortalLevel, if_neg hdl]
      by_cases hs1 : level + 1 < d
      · by_cases hs2 : isPointInFrontOfPortal portal
            (camPosition (nextPortalCamera portal refpt cam)) = true
        · simp only [if_pos hs1, if_pos hs2, countCmd_cons, countCmd_append, countCmd_nil]
          cases j with
          | zero =>
            simp only [Nat.add_zero]
            rw [rpl_mark_below d orig portal refpt f (level + 1) _ _ level (by omega)]
            have hpos : level < d ∧ descentOk portal refpt cam 0 :=
              ⟨by omega, fun k hk => absurd hk (Nat.not_lt_zero k)⟩
            rw [if_pos hpos]
            simp [markCmd, restoreCmd]
          | succ j2 =>
            have harg : level + (j2 + 1) = level + 1 + j2 := by omega
            rw [harg]
            have hstep := fun stx => ih (level + 1) (nextPortalCamera portal refpt cam) stx j2
              (by omega : d ≤ f + (level + 1))
            rw [hstep _]
            have hcond : (level + 1 + j2 < d ∧
                descentOk portal refpt (nextPortalCamera portal refpt cam) j2) ↔
                (level + 1 + j2 < d ∧ descentOk portal refpt cam (j2 + 1)) := by
              constructor
              · rintro ⟨h1, h2⟩
                refine ⟨h1, ?_⟩
                rw [descentOk, forall_lt_succ_bot]
                constructor
                · simpa [portalCamAtLevel] using hs2
                · intro k hk
                  have h3 := h2 k hk
                  rwa [portalCamAtLevel_shift] at h3
              · rintro ⟨h1, h2⟩
                refine ⟨h1, ?_⟩
                intro k hk
                rw [portalCamAtLevel_shift]
                exact h2 (k + 1) (by omega)
            rw [if_congr hcond rfl rfl]
            have hne : ¬ level = level + 1 + j2 := by omega
            simp [markCmd, restoreCmd, hne]
        · simp only [if_pos hs1, if_neg hs2, countCmd_cons, countCmd_append, countCmd_nil]
          cases j with
          | zero =>
            simp only [Nat.add_zero]
            have hpos : level < d ∧ descentOk portal refpt cam 0 :=
              ⟨by omega, fun k hk => absurd hk (Nat.not_lt_zero k)⟩
            rw [if_pos hpos]
            simp [markCmd, restoreCmd]
          | succ j2 =>
            have hcond : ¬ (level + (j2 + 1) < d ∧ descentOk portal refpt cam (j2 + 1)) := by
              rintro ⟨h1, h2⟩
              have := h2 0 (Nat.succ_pos j2)
              simp only [portalCamAtLevel] at this
              exact hs2 this
            rw [if_neg hcond]
            have hne : ¬ level = level + (j2 + 1) := by omega
            simp [markCmd, restoreCmd, hne]
      · simp only [if_neg hs1, countCmd_cons, countCmd_append, countCmd_nil]
        cases j with
        | zero =>
          simp only [Nat.add_zero]
          have hpos : level < d ∧ descentOk portal refpt cam 0 :=
            ⟨by omega, fun k hk => absurd hk (Nat.not_lt_zero k)⟩
          rw [if_pos hpos]
          simp [markCmd, restoreCmd]
        | succ j2 =>
          rw [if_neg (by omega : ¬ (level + (j2 + 1) < d ∧ descentOk portal refpt cam (j2 + 1)))]
          have hne : ¬ level = level + (j2 + 1) := by omega
          simp [markCmd, restoreCmd, hne]

theorem stencilAfter_nil (s : ℕ) : stencilAfter s [] = s := rfl

theorem stencilAfter_cons (s : ℕ) (a : RCmd) (t : List RCmd) :
    stencilAfter s (a :: t) = stencilAfter (stencilStep s a) t := rfl

theorem stencilAfter_append (s : ℕ) (l1 l2 : List RCmd) :
    stencilAfter s (l1 ++ l2) = stencilAfter (stencilAfter s l1) l2 := by
  simp [stencilAfter, List.foldl_append]

@[simp] theorem stencilStep_upd (s : ℕ) : stencilStep s RCmd.updatePortalCam = s := rfl

@[simp] theorem stencilStep_clearDepth (s : ℕ) : stencilStep s RCmd.clearDepth = s := rfl

@[simp] theorem stencilStep_scene (s r : ℕ) : stencilStep s (RCmd.renderSceneStencil r) = s := rfl

@[simp] theorem stencilStep_mainFinal (s : ℕ) : stencilStep s RCmd.renderMainFinal = s := rfl

@[simp] theorem stencilStep_plain (s : ℕ) : stencilStep s RCmd.renderPlain = s := rfl

@[simp] theorem stencilStep_clearAll (s : ℕ) : stencilStep s RCmd.clearColorDepthStencil = 0 := rfl

theorem stencilStep_mark_at (level : ℕ) (h : level + 1 < 256) :
    stencilStep level (RCmd.renderHelper (stencilWriterMaterialAt level)) = level + 1 := by
  simp [stencilStep, stencilWriterMaterialAt, stencilTestPasses, stencilOpApply,
    Nat.mod_eq_of_lt h]

theorem stencilStep_restore_at (level : ℕ) (h : level < 256) :
    stencilStep (level + 1) (RCmd.renderHelper (depthOnlyMaterialAt (level + 1))) = level := by
  simp only [stencilStep, depthOnlyMaterialAt, stencilTestPasses, stencilOpApply,
    beq_self_eq_true, if_true]
  omega

theorem rpl_stencilAfter (d : ℕ) (orig : Material) (portal refpt : Object3D) (hd : d ≤ 255) :
    ∀ fuel level cam st,
      stencilAfter level
        ((renderPortalLevel d orig (some portal) (some refpt) fuel level cam st).1) = level := by
  intro fuel
  induction fuel with
  | zero => intro level cam st; rfl
  | succ f ih =>
    intro level cam st
    by_cases hdl : d ≤ level
    · simp only [renderPortalLevel, if_pos hdl]; rfl
    · simp only [renderPortalLevel, if_neg hdl]
      by_cases hs1 : level + 1 < d
      · by_cases hs2 : isPointInFrontOfPortal portal
            (camPosition (nextPortalCamera portal refpt cam)) = true
        · simp only [if_pos hs1, if_pos hs2, stencilAfter_cons, stencilStep_upd,
            stencilStep_clearDepth, stencilStep_scene,
            stencilStep_mark_at level (by omega : level + 1 < 256), stencilAfter_append]
          rw [ih]
          rw [stencilStep_restore_at level (by omega : level < 256), stencilAfter_nil]
        · simp only [if_pos hs1, if_neg hs2, stencilAfter_cons, stencilStep_upd,
            stencilStep_clearDepth, stencilStep_scene,
            stencilStep_mark_at level (by omega : level + 1 < 256), stencilAfter_append,
            stencilAfter_nil]
          exact stencilStep_restore_at level (by omega : level < 256)
      · simp only [if_neg hs1, stencilAfter_cons, stencilStep_upd,
          stencilStep_clearDepth, stencilStep_scene,
          stencilStep_mark_at level (by omega : level + 1 < 256), stencilAfter_append,
          stencilAfter_nil]
        exact stencilStep_restore_at level (by omega : level < 256)

theorem rpl_finalState (d : ℕ) (orig : Material) (portal refpt : Object3D)
    (f level : ℕ) (cam : Camera) (st : RenderState) (hlev : level < d) :
    ((renderPortalLevel d orig (some portal) (some refpt) (f + 1) level cam st).2).portalVisible
        = true ∧
    ((renderPortalLevel d orig (some portal) (some refpt) (f + 1) level cam st).2).portalMaterial
        = orig := by
  simp only [renderPortalLevel, if_neg (not_le.mpr hlev)]
  exact ⟨trivial, trivial⟩

theorem isPointInFrontOfPortal_iff (vp : Object3D) (p : Vec3) :
    isPointInFrontOfPortal vp p = true ↔ 0 < distanceToPoint (getPlaneFromObject vp) p := by
  simp [isPointInFrontOfPortal]

theorem render_portal_path (mgr : PortalManager) (st : RenderState) (portal refpt : Object3D)
    (hv : mgr.viewPortal = some portal) (hr : mgr.referencePoint = some refpt)
    (he : mgr.enabled = true)
    (hfront : isPointInFrontOfPortal portal (camPosition mgr.mainCamera) = true) :
    render mgr st =
      (RCmd.clearColorDepthStencil ::
        ((renderPortalLevel mgr.recursionDepth mgr.originalMaterial (some portal) (some refpt)
            mgr.recursionDepth 0 mgr.mainCamera { st with autoClear := false }).1
          ++ [RCmd.renderMainFinal]),
       { clearSceneStencilTest
           { setSceneStencilTest
               (renderPortalLevel mgr.recursionDepth mgr.originalMaterial (some portal) (some refpt)
                  mgr.recursionDepth 0 mgr.mainCamera { st with autoClear := false }).2
               0 StencilFuncKind.equal
             with portalVisible := true }
         with autoClear := true }) := by
  simp only [render, hv, hr, he, hfront, if_true]

theorem render_fallback (mgr : PortalManager) (st : RenderState)
    (h : mgr.enabled = false ∨ mgr.viewPortal = none ∨ mgr.referencePoint = none ∨
      ∀ portal, mgr.viewPortal = some portal →
        isPointInFrontOfPortal portal (camPosition mgr.mainCamera) = false) :
    render mgr st = ([RCmd.renderPlain], st) := by
  rcases hE : mgr.enabled with _ | _ <;>
  rcases hV : mgr.viewPortal with _ | portal <;>
  rcases hR : mgr.referencePoint with _ | refpt <;>
  simp only [render, hE, hV, hR]
  case true.some.some =>
    have hf : isPointInFrontOfPortal portal (camPosition mgr.mainCamera) = false := by
      rcases h with h | h | h | h
      · rw [hE] at h; simp at h
      · rw [hV] at h; simp at h
      · rw [hR] at h; simp at h
      · exact h portal hV
    simp [hf]

/-- A portal surface at the origin facing `+Z` (identity quaternion, unit scale). -/
def portalFixture : Object3D := ⟨⟨0, 0, 0⟩, ⟨0, 0, 0, 1⟩, ⟨1, 1, 1⟩⟩

/-- A reference point at the origin rotated 180° about `+Y`
(quaternion `(0, 1, 0, 0)`), so its world matrix is exactly `rotY180`. -/
def rot180RefFixture : Object3D := ⟨⟨0, 0, 0⟩, ⟨0, 1, 0, 0⟩, ⟨1, 1, 1⟩⟩

/-- A main camera standing at `(0, 0, 3)`, i.e. 3 units in front of
`portalFixture`, with identity projection. -/
def mainCameraFixture : Camera :=
  { matrixWorld := { mat4One with m34 := 3 },
    projectionMatrix := mat4One, projectionMatrixInverse := mat4One }

/-- A plain default material (the recorded original portal material). -/
def materialFixture : Material := {}

/-- A quiescent render state: portal visible with its original material, one
scene material with the stencil test off, auto-clear on. -/
def renderStateFixture : RenderState :=
  { portalVisible := true, portalMaterial := materialFixture,
    sceneMaterials := [materialFixture], autoClear := true }

/-- A configured, enabled manager: depth 3, viewer in front of the portal. -/
def managerFixture : PortalManager :=
  { recursionDepth := 3, enabled := true, mainCamera := mainCameraFixture,
    viewPortal := some portalFixture, referencePoint := some rot180RefFixture,
    originalMaterial := materialFixture,
    portalCameras := [newPerspectiveCamera, newPerspectiveCamera, newPerspectiveCamera] }

/-- The same manager with portal rendering disabled. -/
def disabledManagerFixture : PortalManager := { managerFixture with enabled := false }

/-- The same manager with the main camera exactly in the portal plane. -/
def boundaryManagerFixture : PortalManager :=
  { managerFixture with
    mainCamera := { matrixWorld := mat4One, projectionMatrix := mat4One,
                    projectionMatrixInverse := mat4One } }

/-- C1: for every main camera, portal surface and reference point,
`updatePortalCamera` sets the portal camera's world matrix to
`referencePoint.matrixWorld * rotY180 * inverse(portalSurface.matrixWorld) *
mainCamera.matrixWorld` (the pose is assigned by decomposing that matrix into
position/orientation/scale; the decomposed position is its translation
column), and copies the main camera's projection matrix and inverse
projection matrix to the portal camera unchanged. -/
theorem updatePortalCamera_composes_and_copies_projection
    (mainCamera : Camera) (viewPortal referencePoint : Object3D) :
    (updatePortalCamera mainCamera viewPortal referencePoint).matrixWorld
        = mat4Mul (mat4Mul (mat4Mul (matrixWorldOf referencePoint) rotY180)
            (mat4Invert (matrixWorldOf viewPortal))) mainCamera.matrixWorld ∧
    (updatePortalCamera mainCamera viewPortal referencePoint).projectionMatrix
        = mainCamera.projectionMatrix ∧
    (updatePortalCamera mainCamera viewPortal referencePoint).projectionMatrixInverse
        = mainCamera.projectionMatrixInverse ∧
    camPosition (updatePortalCamera mainCamera viewPortal referencePoint)
        = ⟨(mat4Mul (mat4Mul (mat4Mul (matrixWorldOf referencePoint) rotY180)
              (mat4Invert (matrixWorldOf viewPortal))) mainCamera.matrixWorld).m14,
           (mat4Mul (mat4Mul (mat4Mul (matrixWorldOf referencePoint) rotY180)
              (mat4Invert (matrixWorldOf viewPortal))) mainCamera.matrixWorld).m24,
           (mat4Mul (mat4Mul (mat4Mul (matrixWorldOf referencePoint) rotY180)
              (mat4Invert (matrixWorldOf viewPortal))) mainCamera.matrixWorld).m34⟩ :=
  ⟨rfl, rfl, rfl, rfl⟩

/-- C2: for every camera and destination plane, `applyObliqueClipping`
replaces exactly the third row of the projection matrix
(`m31, m32, m33, m34`, i.e. `elements[2], [6], [10], [14]`) with
`scale * planeCameraSpace - row4`, where `planeCameraSpace` is the plane
carried into camera space by the normal matrix of the view matrix, `q` is the
inverse projection applied to `(sign planeCam.x, sign planeCam.y, 1, 1)` and
`scale = 2 / dot(planeCameraSpace, q)`; every entry outside the third row is
unchanged. -/
theorem applyObliqueClipping_replaces_third_row
    (portalCamera : Camera) (referencePlane : Plane) :
    (applyObliqueClipping portalCamera referencePlane).projectionMatrix =
      (let planeCam := cameraSpaceClipPlane portalCamera referencePlane
       let q := v4ApplyMatrix4 ⟨rsign planeCam.x, rsign planeCam.y, 1, 1⟩
         (mat4Invert portalCamera.projectionMatrix)
       let scale := 2 / dot4 planeCam q
       { portalCamera.projectionMatrix with
         m31 := scale * planeCam.x - portalCamera.projectionMatrix.m41,
         m32 := scale * planeCam.y - portalCamera.projectionMatrix.m42,
         m33 := scale * planeCam.z - portalCamera.projectionMatrix.m43,
         m34 := scale * planeCam.w - portalCamera.projectionMatrix.m44 }) := by
  ext <;> simp [applyObliqueClipping, v4scale, mul_comm]

/-- C6: if the reference point's transform composed with the 180° vertical
rotation and the inverse of the portal surface's transform is the identity
(an identity portal), the portal camera pose computed by `updatePortalCamera`
equals the main camera's pose. -/
theorem updatePortalCamera_identity_portal_round_trip
    (mainCamera : Camera) (viewPortal referencePoint : Object3D)
    (h : mat4Mul (mat4Mul (matrixWorldOf referencePoint) rotY180)
        (mat4Invert (matrixWorldOf viewPortal)) = mat4One) :
    (updatePortalCamera mainCamera viewPortal referencePoint).matrixWorld
        = mainCamera.matrixWorld ∧
    camPosition (updatePortalCamera mainCamera viewPortal referencePoint)
        = camPosition mainCamera := by
  have hm : (updatePortalCamera mainCamera viewPortal referencePoint).matrixWorld
      = mainCamera.matrixWorld := by
    show mat4Mul (mat4Mul (mat4Mul (matrixWorldOf referencePoint) rotY180)
        (mat4Invert (matrixWorldOf viewPortal))) mainCamera.matrixWorld
      = mainCamera.matrixWorld
    rw [h, mat4_one_mul]
  exact ⟨hm, by rw [camPosition, camPosition, hm]⟩

theorem updatePortalCamera_identity_portal_round_trip_witness :
    mat4Mul (mat4Mul (matrixWorldOf rot180RefFixture) rotY180)
        (mat4Invert (matrixWorldOf portalFixture)) = mat4One ∧
    (updatePortalCamera mainCameraFixture portalFixture rot180RefFixture).matrixWorld
        = mainCameraFixture.matrixWorld := by
  have hyp : mat4Mul (mat4Mul (matrixWorldOf rot180RefFixture) rotY180)
      (mat4Invert (matrixWorldOf portalFixture)) = mat4One := by
    norm_num [matrixWorldOf, mat4Compose, portalFixture, rot180RefFixture, rotY180,
      mat4Mul, mat4Invert, mat4One, mat4Zero, Mat4.mk.injEq]
  exact ⟨hyp,
    (updatePortalCamera_identity_portal_round_trip mainCameraFixture portalFixture
      rot180RefFixture hyp).1⟩

/-- C7: for every portal surface object with a unit orientation quaternion,
the derived world-space plane has normal equal to the local `+Z` axis rotated
by the object's orientation, that normal has unit length (the explicit
normalization is the identity there, whatever the object's scale), and the
plane passes through the object's world position.  The derivation
`getPlaneFromObject` is a pure function of the object, so it is deterministic
and has no side effects by construction. -/
theorem getPlaneFromObject_spec (object : Object3D)
    (h : quatNormSq object.quaternion = 1) :
    (getPlaneFromObject object).normal = applyQuaternionV ⟨0, 0, 1⟩ object.quaternion ∧
    normSq3 (getPlaneFromObject object).normal = 1 ∧
    distanceToPoint (getPlaneFromObject object) (getWorldPosition object) = 0 := by
  have hn : normSq3 (applyQuaternionV ⟨0, 0, 1⟩ object.quaternion) = 1 :=
    normSq3_applyQuaternionV_z object.quaternion h
  have hnorm : vnormalize (applyQuaternionV ⟨0, 0, 1⟩ object.quaternion)
      = applyQuaternionV ⟨0, 0, 1⟩ object.quaternion :=
    vnormalize_of_normSq_one _ hn
  refine ⟨?_, ?_, ?_⟩
  · simp [getPlaneFromObject, setFromNormalAndCoplanarPoint, hnorm]
  · simp only [getPlaneFromObject, setFromNormalAndCoplanarPoint, hnorm]
    exact hn
  · simp only [getPlaneFromObject, setFromNormalAndCoplanarPoint, distanceToPoint, dot3]
    ring

theorem getPlaneFromObject_spec_witness :
    quatNormSq portalFixture.quaternion = 1 ∧
    distanceToPoint (getPlaneFromObject portalFixture) (getWorldPosition portalFixture) = 0 := by
  have h1 : quatNormSq portalFixture.quaternion = 1 := by
    norm_num [quatNormSq, portalFixture]
  exact ⟨h1, (getPlaneFromObject_spec portalFixture h1).2.2⟩

/-- C8: for every integer argument, `setRecursionDepth` stores the argument
clamped to `[1, 10]` and grows the camera pool to at least the new depth —
the old pool is kept as-is (cameras are appended, never removed). -/
theorem setRecursionDepth_clamps_and_grows_pool (mgr : PortalManager) (depth : ℤ) :
    (setRecursionDepth mgr depth).recursionDepth = (max 1 (min 10 depth)).toNat ∧
    1 ≤ (setRecursionDepth mgr depth).recursionDepth ∧
    (setRecursionDepth mgr depth).recursionDepth ≤ 10 ∧
    (setRecursionDepth mgr depth).recursionDepth
        ≤ (setRecursionDepth mgr depth).portalCameras.length ∧
    (setRecursionDepth mgr depth).portalCameras.length
        = max mgr.portalCameras.length (setRecursionDepth mgr depth).recursionDepth ∧
    (setRecursionDepth mgr depth).portalCameras.take mgr.portalCameras.length
        = mgr.portalCameras := by
  refine ⟨rfl, ?_, ?_, ?_, ?_, ?_⟩
  · simp only [setRecursionDepth]; omega
  · simp only [setRecursionDepth]; omega
  · simp only [setRecursionDepth, List.length_append, List.length_replicate]; omega
  · simp only [setRecursionDepth, List.length_append, List.length_replicate]; omega
  · simp only [setRecursionDepth]
    exact List.take_left mgr.portalCameras _

/-- C5: whenever the manager is disabled, or no portal is configured (view
portal or reference point missing), or the main camera is not in front of the
portal plane, `render()` issues exactly one plain scene render from the main
camera and returns — no stencil write, no portal-camera update, no buffer
clear appears in the command trace, and the render state is untouched. -/
theorem render_fallback_plain (mgr : PortalManager) (st : RenderState)
    (h : mgr.enabled = false ∨ mgr.viewPortal = none ∨ mgr.referencePoint = none ∨
      ∀ portal, mgr.viewPortal = some portal →
        isPointInFrontOfPortal portal (camPosition mgr.mainCamera) = false) :
    render mgr st = ([RCmd.renderPlain], st) :=
  render_fallback mgr st h

theorem render_fallback_plain_witness :
    disabledManagerFixture.enabled = false ∧
    render disabledManagerFixture renderStateFixture = ([RCmd.renderPlain], renderStateFixture) :=
  ⟨rfl, render_fallback_plain disabledManagerFixture renderStateFixture (Or.inl rfl)⟩

/-- C10: `isPointInFrontOfPortal` returns `true` exactly when the signed
distance from the portal plane to the point is strictly positive; a point
exactly in the plane (distance zero) is classified as not in front, and a
`render()` call whose main camera sits exactly in the portal plane takes the
plain-render fallback path. -/
theorem isPointInFrontOfPortal_strict_boundary
    (viewPortal : Object3D) (point : Vec3) (mgr : PortalManager) (st : RenderState) :
    (isPointInFrontOfPortal viewPortal point = true ↔
        0 < distanceToPoint (getPlaneFromObject viewPortal) point) ∧
    (distanceToPoint (getPlaneFromObject viewPortal) point = 0 →
        isPointInFrontOfPortal viewPortal point = false) ∧
    (mgr.viewPortal = some viewPortal →
      distanceToPoint (getPlaneFromObject viewPortal) (camPosition mgr.mainCamera) = 0 →
      render mgr st = ([RCmd.renderPlain], st)) := by
  refine ⟨isPointInFrontOfPortal_iff viewPortal point, ?_, ?_⟩
  · intro h0
    simp [isPointInFrontOfPortal, h0]
  · intro hv h0
    apply render_fallback
    refine Or.inr (Or.inr (Or.inr ?_))
    intro p hp
    rw [hv] at hp
    injection hp with hpe
    subst hpe
    simp [isPointInFrontOfPortal, h0]

theorem isPointInFrontOfPortal_strict_boundary_witness :
    distanceToPoint (getPlaneFromObject portalFixture)
        (camPosition boundaryManagerFixture.mainCamera) = 0 ∧
    render boundaryManagerFixture renderStateFixture
        = ([RCmd.renderPlain], renderStateFixture) := by
  have h0 : distanceToPoint (getPlaneFromObject portalFixture)
      (camPosition boundaryManagerFixture.mainCamera) = 0 := by
    norm_num [distanceToPoint, getPlaneFromObject, getWorldPosition, matrixWorldOf,
      mat4Compose, applyQuaternionV, vnormalize, vlength, normSq3, dot3, ratSqrt_one,
      setFromNormalAndCoplanarPoint, portalFixture, boundaryManagerFixture, managerFixture,
      camPosition, mat4One]
  exact ⟨h0,
    (isPointInFrontOfPortal_strict_boundary portalFixture
      (camPosition boundaryManagerFixture.mainCamera) boundaryManagerFixture
      renderStateFixture).2.2 rfl h0⟩

/-- C3: in the draw sequence `render()` emits for a configured, enabled
portal with the viewer in front and a recursion depth in `[1, 10]`, the
number of stencil-increment ("mark") portal draws at each level `L`
(color/depth writes off, confined to stencil = `L`, incrementing to `L + 1`)
equals the number of stencil-decrement ("restore") portal draws of that level
(confined to stencil = `L + 1`), each occurring at most once, and folding the
per-pixel stencil semantics over the whole trace starting from a cleared
stencil of 0 ends back at 0. -/
theorem render_stencil_conservation (mgr : PortalManager) (st : RenderState)
    (portal refpt : Object3D)
    (hv : mgr.viewPortal = some portal) (hr : mgr.referencePoint = some refpt)
    (he : mgr.enabled = true)
    (hfront : isPointInFrontOfPortal portal (camPosition mgr.mainCamera) = true)
    (hd1 : 1 ≤ mgr.recursionDepth) (hd10 : mgr.recursionDepth ≤ 10) :
    (∀ L, countCmd (markCmd L) (render mgr st).1
        = countCmd (restoreCmd L) (render mgr st).1) ∧
    (∀ L, countCmd (markCmd L) (render mgr st).1 ≤ 1) ∧
    stencilAfter 0 (render mgr st).1 = 0 := by
  rw [render_portal_path mgr st portal refpt hv hr he hfront]
  refine ⟨?_, ?_, ?_⟩
  · intro L
    simp only [countCmd_cons, countCmd_append, countCmd_nil]
    rw [rpl_mark_eq_restore]
    simp [markCmd, restoreCmd]
  · intro L
    simp only [countCmd_cons, countCmd_append, countCmd_nil]
    have hchar := rpl_mark_char mgr.recursionDepth mgr.originalMaterial portal refpt
      mgr.recursionDepth 0 mgr.mainCamera { st with autoClear := false } L (by omega)
    rw [Nat.zero_add] at hchar
    have hne1 : ¬ (RCmd.clearColorDepthStencil = markCmd L) := by simp [markCmd]
    have hne2 : ¬ (RCmd.renderMainFinal = markCmd L) := by simp [markCmd]
    rw [hchar, if_neg hne1, if_neg hne2]
    split <;> norm_num
  · simp only [stencilAfter_cons, stencilStep_clearAll, stencilAfter_append]
    rw [rpl_stencilAfter mgr.recursionDepth mgr.originalMaterial portal refpt (by omega)]
    rfl

theorem render_stencil_conservation_witness :
    isPointInFrontOfPortal portalFixture (camPosition managerFixture.mainCamera) = true ∧
    stencilAfter 0 (render managerFixture renderStateFixture).1 = 0 := by
  have hfront : isPointInFrontOfPortal portalFixture
      (camPosition managerFixture.mainCamera) = true := by
    norm_num [isPointInFrontOfPortal, distanceToPoint, getPlaneFromObject, getWorldPosition,
      matrixWorldOf, mat4Compose, applyQuaternionV, vnormalize, vlength, normSq3, dot3,
      ratSqrt_one, setFromNormalAndCoplanarPoint, portalFixture, managerFixture,
      mainCameraFixture, camPosition, mat4One]
  exact ⟨hfront,
    (render_stencil_conservation managerFixture renderStateFixture portalFixture
      rot180RefFixture rfl rfl rfl hfront (by norm_num [managerFixture])
      (by norm_num [managerFixture])).2.2⟩

/-- The command trace of `_renderPortalLevel` entered at level 0 from
`render()` (so with `fuel = recursionDepth`). -/
def renderPortalTrace (d : ℕ) (orig : Material) (portal refpt : Object3D)
    (cam : Camera) (st : RenderState) : List RCmd :=
  (renderPortalLevel d orig (some portal) (some refpt) d 0 cam st).1

/-- C4: the recursion of `_renderPortalLevel` terminates by construction;
level `L + 1` is rendered (exactly one mark draw carries its reference value)
precisely when level `L` was rendered, `L + 1` is below the configured depth,
and the portal camera computed at level `L` sits strictly in front of the
portal plane; no level at or beyond the configured depth is ever rendered;
and if the level-0 portal camera lies behind the portal plane, only level 0
is rendered no matter how large the configured depth is. -/
theorem renderPortalLevel_terminates_and_prunes
    (d : ℕ) (orig : Material) (portal refpt : Object3D) (cam : Camera)
    (st : RenderState) (hd : 1 ≤ d) :
    (∀ L, d ≤ L →
        countCmd (markCmd L) (renderPortalTrace d orig portal refpt cam st) = 0) ∧
    (∀ L, countCmd (markCmd (L + 1)) (renderPortalTrace d orig portal refpt cam st) = 1 ↔
        (countCmd (markCmd L) (renderPortalTrace d orig portal refpt cam st) = 1 ∧
         L + 1 < d ∧
         0 < distanceToPoint (getPlaneFromObject portal)
              (camPosition (portalCamAtLevel portal refpt cam (L + 1))))) ∧
    (distanceToPoint (getPlaneFromObject portal)
        (camPosition (portalCamAtLevel portal refpt cam 1)) < 0 →
      countCmd (markCmd 0) (renderPortalTrace d orig portal refpt cam st) = 1 ∧
      ∀ L, 1 ≤ L →
        countCmd (markCmd L) (renderPortalTrace d orig portal refpt cam st) = 0) := by
  have hchar : ∀ L, countCmd (markCmd L) (renderPortalTrace d orig portal refpt cam st)
      = if L < d ∧ descentOk portal refpt cam L then 1 else 0 := by
    intro L
    have h := rpl_mark_char d orig portal refpt d 0 cam st L (by omega)
    rwa [Nat.zero_add] at h
  have hsplit : ∀ L, descentOk portal refpt cam (L + 1) ↔
      descentOk portal refpt cam L ∧
        isPointInFrontOfPortal portal
          (camPosition (portalCamAtLevel portal refpt cam (L + 1))) = true := by
    intro L
    simp only [descentOk]
    exact forall_lt_succ_top _ L
  refine ⟨?_, ?_, ?_⟩
  · intro L hL
    rw [hchar L, if_neg]
    rintro ⟨h1, _⟩
    omega
  · intro L
    rw [hchar (L + 1), hchar L]
    constructor
    · intro h
      have hc : (L + 1 < d ∧ descentOk portal refpt cam (L + 1)) := by
        by_contra hcn
        rw [if_neg hcn] at h
        exact absurd h (by norm_num)
      obtain ⟨h1, h2⟩ := hc
      rw [hsplit L] at h2
      obtain ⟨h2a, h2b⟩ := h2
      have hLd : L < d ∧ descentOk portal refpt cam L := ⟨by omega, h2a⟩
      refine ⟨by rw [if_pos hLd], h1, ?_⟩
      rw [← isPointInFrontOfPortal_iff]
      exact h2b
    · rintro ⟨hA, h1, hdist⟩
      have hfront : isPointInFrontOfPortal portal
          (camPosition (portalCamAtLevel portal refpt cam (L + 1))) = true :=
        (isPointInFrontOfPortal_iff portal _).mpr hdist
      have hLd : L < d ∧ descentOk portal refpt cam L := by
        by_contra hcn
        rw [if_neg hcn] at hA
        exact absurd hA (by norm_num)
      have hcond : L + 1 < d ∧ descentOk portal refpt cam (L + 1) :=
        ⟨h1, (hsplit L).mpr ⟨hLd.2, hfront⟩⟩
      rw [if_pos hcond]
  · intro hbehind
    have hfrontF : ¬ isPointInFrontOfPortal portal
        (camPosition (portalCamAtLevel portal refpt cam 1)) = true := by
      rw [isPointInFrontOfPortal_iff]
      intro hlt
      linarith
    constructor
    · rw [hchar 0]
      have hpos : 0 < d ∧ descentOk portal refpt cam 0 :=
        ⟨by omega, fun k hk => absurd hk (Nat.not_lt_zero k)⟩
      rw [if_pos hpos]
    · intro L hL
      rw [hchar L, if_neg]
      rintro ⟨h1, h2⟩
      exact hfrontF (h2 0 (by omega))

theorem renderPortalLevel_terminates_and_prunes_witness :
    (1:ℕ) ≤ 3 ∧ countCmd (markCmd 5)
        (renderPortalTrace 3 materialFixture portalFixture rot180RefFixture
          mainCameraFixture renderStateFixture) = 0 := by
  refine ⟨by norm_num, ?_⟩
  exact (renderPortalLevel_terminates_and_prunes 3 materialFixture portalFixture
    rot180RefFixture mainCameraFixture renderStateFixture (by norm_num)).1 5 (by norm_num)

/-- C9: after a `render()` call on a configured, enabled portal with the
viewer in front (depth at least 1), every scene mutation made during the
marking, recursive-draw and depth-restore steps has been reverted: the view
portal is visible again, its material is the original material recorded at
setup, and every scene material has its stencil test switched off. -/
theorem render_reverts_scene_state (mgr : PortalManager) (st : RenderState)
    (portal refpt : Object3D)
    (hv : mgr.viewPortal = some portal) (hr : mgr.referencePoint = some refpt)
    (he : mgr.enabled = true)
    (hfront : isPointInFrontOfPortal portal (camPosition mgr.mainCamera) = true)
    (hd1 : 1 ≤ mgr.recursionDepth) :
    ((render mgr st).2).portalVisible = true ∧
    ((render mgr st).2).portalMaterial = mgr.originalMaterial ∧
    ∀ m ∈ ((render mgr st).2).sceneMaterials, m.stencilWrite = false := by
  rw [render_portal_path mgr st portal refpt hv hr he hfront]
  obtain ⟨f, hf⟩ : ∃ f, mgr.recursionDepth = f + 1 :=
    ⟨mgr.recursionDepth - 1, by omega⟩
  refine ⟨?_, ?_, ?_⟩
  · simp [clearSceneStencilTest, setSceneStencilTest]
  · have hmat := (rpl_finalState mgr.recursionDepth mgr.originalMaterial portal refpt
      f 0 mgr.mainCamera { st with autoClear := false } (by omega)).2
    simp only [clearSceneStencilTest, setSceneStencilTest]
    rw [hf]
    rw [hf] at hmat
    exact hmat
  · intro m hm
    simp only [clearSceneStencilTest] at hm
    obtain ⟨a, _, rfl⟩ := List.mem_map.mp hm
    rfl

theorem render_reverts_scene_state_witness :
    isPointInFrontOfPortal portalFixture (camPosition managerFixture.mainCamera) = true ∧
    ((render managerFixture renderStateFixture).2).portalVisible = true := by
  have hfront : isPointInFrontOfPortal portalFixture
      (camPosition managerFixture.mainCamera) = true := by
    norm_num [isPointInFrontOfPortal, distanceToPoint, getPlaneFromObject, getWorldPosition,
      matrixWorldOf, mat4Compose, applyQuaternionV, vnormalize, vlength, normSq3, dot3,
      ratSqrt_one, setFromNormalAndCoplanarPoint, portalFixture, managerFixture,
      mainCameraFixture, camPosition, mat4One]
  exact ⟨hfront,
    (render_reverts_scene_state managerFixture renderStateFixture portalFixture
      rot180RefFixture rfl rfl rfl hfront (by norm_num [managerFixture])).1⟩
